import Mathlib

/-!
Verification of the qbot Spotify polling engine.

The definitions below are a shallow embedding of the repository's
`SpotifyService` class (src/unnamed/part_000, i.e. the Spotify
integration module) and the reconciliation loop in src/events/ready.ts
(the first document in that file).  JavaScript `Map`s are embedded as
insertion-ordered association lists; network calls (token refresh,
playback fetch, artist fetch) are driven by an explicit environment of
outcomes consumed in order, and an execution trace counts how many
refresh and playback requests were issued.
-/

namespace QBot

/-! ### Insertion-ordered maps (JavaScript `Map` semantics) -/

/-- `Map.get`: first entry with the key, if any. -/
def mapGet {α : Type} : List (String × α) → String → Option α
  | [], _ => none
  | p :: rest, k => if p.1 = k then some p.2 else mapGet rest k

/-- `Map.set`: update in place when the key exists, else append at the end. -/
def mapSet {α : Type} : List (String × α) → String → α → List (String × α)
  | [], k, v => [(k, v)]
  | p :: rest, k, v => if p.1 = k then (k, v) :: rest else p :: mapSet rest k v

/-- `Map.delete`: remove the entry with the key. -/
def mapDelete {α : Type} : List (String × α) → String → List (String × α)
  | [], _ => []
  | p :: rest, k => if p.1 = k then mapDelete rest k else p :: mapDelete rest k

/-- `Map.has`. -/
def mapHas {α : Type} (m : List (String × α)) (k : String) : Bool :=
  (mapGet m k).isSome

theorem mapGet_mapSet_self {α : Type} (m : List (String × α)) (k : String) (v : α) :
    mapGet (mapSet m k v) k = some v := by
  induction m with
  | nil => simp [mapSet, mapGet]
  | cons p rest ih =>
    by_cases h : p.1 = k
    · simp [mapSet, h, mapGet]
    · simp [mapSet, h, mapGet, ih]

theorem mapGet_mapSet_ne {α : Type} (m : List (String × α)) (k k' : String) (v : α)
    (h : k' ≠ k) : mapGet (mapSet m k v) k' = mapGet m k' := by
  have hne : ¬ (k = k') := fun hk => h hk.symm
  induction m with
  | nil => simp [mapSet, mapGet, hne]
  | cons p rest ih =>
    by_cases hp : p.1 = k
    · subst hp
      simp [mapSet, mapGet, hne]
    · by_cases hp' : p.1 = k'
      · simp [mapSet, hp, mapGet, hp', h]
      · simp [mapSet, hp, mapGet, hp', ih]

theorem mapGet_mapDelete_self {α : Type} (m : List (String × α)) (k : String) :
    mapGet (mapDelete m k) k = none := by
  induction m with
  | nil => simp [mapDelete, mapGet]
  | cons p rest ih =>
    by_cases h : p.1 = k
    · simp [mapDelete, h, ih]
    · simp [mapDelete, h, mapGet, ih]

theorem mapGet_mapDelete_ne {α : Type} (m : List (String × α)) (k k' : String)
    (h : k' ≠ k) : mapGet (mapDelete m k) k' = mapGet m k' := by
  have hne : ¬ (k = k') := fun hk => h hk.symm
  induction m with
  | nil => simp [mapDelete]
  | cons p rest ih =>
    by_cases hp : p.1 = k
    · subst hp
      simp [mapDelete, mapGet, hne, ih]
    · by_cases hp' : p.1 = k'
      · simp [mapDelete, hp, mapGet, hp', h]
      · simp [mapDelete, hp, mapGet, hp', ih]

/-! ### Data model (src/unnamed/part_000, `SpotifyUser` / `CurrentlyPlaying`) -/

/-- A linked account: `SpotifyUser` in the source. Times are epoch milliseconds. -/
structure SpotifyUser where
  discordId : String
  accessToken : String
  refreshToken : String
  expiresAt : Int
deriving Repr, DecidableEq

/-- A normalized track, the inner `track` object of `CurrentlyPlaying`. -/
structure Track where
  name : String
  artist : String
  artistId : Option String
  artistImageUrl : Option String
  album : Option String
  url : String
  imageUrl : Option String
  duration : Int
  progress : Int
  isPlaying : Bool
deriving Repr, DecidableEq

/-- The per-user playback snapshot: `CurrentlyPlaying` in the source. -/
structure CurrentlyPlaying where
  discordId : String
  track : Option Track
  lastUpdated : Int
  lastTrackId : Option String
deriving Repr, DecidableEq

/-- The four persisted maps held by `SpotifyService`. -/
structure ServiceState where
  users : List (String × SpotifyUser)
  currentlyPlaying : List (String × CurrentlyPlaying)
  channels : List (String × String)
  messages : List (String × String)
deriving Repr, DecidableEq

/-! ### Registry operations (plain persisted key-value stores) -/

/-- `SpotifyService.linkUser`. -/
def linkUser (s : ServiceState) (discordId accessToken refreshToken : String)
    (expiresIn now : Int) : ServiceState :=
  let u : SpotifyUser :=
    { discordId := discordId, accessToken := accessToken,
      refreshToken := refreshToken, expiresAt := now + expiresIn * 1000 }
  { s with users := mapSet s.users discordId u }

/-- `SpotifyService.unlinkUser`: deletes the account, the playback snapshot and
the message ref, leaving the channel config untouched.  Returns whether the
user was linked. -/
def unlinkUser (s : ServiceState) (discordId : String) : Bool × ServiceState :=
  if mapHas s.users discordId then
    (true, { s with
        users := mapDelete s.users discordId,
        currentlyPlaying := mapDelete s.currentlyPlaying discordId,
        messages := mapDelete s.messages discordId })
  else (false, s)

/-- `SpotifyService.isLinked`. -/
def isLinked (s : ServiceState) (discordId : String) : Bool :=
  mapHas s.users discordId

/-- `SpotifyService.setUserChannel`. -/
def setUserChannel (s : ServiceState) (discordId channelId : String) : ServiceState :=
  { s with channels := mapSet s.channels discordId channelId }

/-- `SpotifyService.removeUserChannel`: deletes the channel entry and, only when
one was actually deleted, also the user's message ref. -/
def removeUserChannel (s : ServiceState) (discordId : String) : Bool × ServiceState :=
  if mapHas s.channels discordId then
    (true, { s with
        channels := mapDelete s.channels discordId,
        messages := mapDelete s.messages discordId })
  else (false, s)

/-- `SpotifyService.getUserChannel`. -/
def getUserChannel (s : ServiceState) (discordId : String) : Option String :=
  mapGet s.channels discordId

/-- `SpotifyService.getAllChannels` (the returned value; the copy semantics of
`new Map(...)` are modelled separately with an explicit store below). -/
def getAllChannels (s : ServiceState) : List (String × String) :=
  s.channels

/-- `SpotifyService.getSpotifyChannel`: the first channel entry in iteration
order. -/
def getSpotifyChannel (s : ServiceState) : Option String :=
  s.channels.head?.map (·.2)

/-- `SpotifyService.setUserMessage`: a falsy (empty) message id deletes the
entry rather than storing it. -/
def setUserMessage (s : ServiceState) (discordId messageId : String) : ServiceState :=
  if messageId ≠ "" then
    { s with messages := mapSet s.messages discordId messageId }
  else
    { s with messages := mapDelete s.messages discordId }

/-- `SpotifyService.getUserMessage`. -/
def getUserMessage (s : ServiceState) (discordId : String) : Option String :=
  mapGet s.messages discordId

/-- `SpotifyService.clearUserMessage`. -/
def clearUserMessage (s : ServiceState) (discordId : String) : ServiceState :=
  { s with messages := mapDelete s.messages discordId }

/-- `SpotifyService.getLastTrackId`. -/
def getLastTrackId (s : ServiceState) (discordId : String) : Option String :=
  (mapGet s.currentlyPlaying discordId).bind (·.lastTrackId)

/-- `SpotifyService.getAllLinkedUsers`. -/
def getAllLinkedUsers (s : ServiceState) : List String :=
  s.users.map (·.1)

/-- `SpotifyService.getAllCurrentlyPlaying` (returned value). -/
def getAllCurrentlyPlaying (s : ServiceState) : List (String × CurrentlyPlaying) :=
  s.currentlyPlaying

/-- `SpotifyService.hasSongChanged`. -/
def hasSongChanged (s : ServiceState) (discordId : String) (name artist : String) : Bool :=
  match (mapGet s.currentlyPlaying discordId).bind (·.lastTrackId) with
  | none => true
  | some lastId => lastId ≠ name ++ "|" ++ artist

/-! ### Network environment

Outcomes of external requests are supplied by an environment and consumed in
order; the execution record also counts how many refresh-token exchanges and
playback fetches were issued. -/

/-- Outcome of one `refreshAccessToken` exchange. -/
inductive RefreshOutcome where
  | success (newAccessToken : String) (expiresIn : Int)
  | failure
deriving Repr, DecidableEq

/-- An artist object inside `response.body.item.artists`. -/
structure ApiArtist where
  name : String
  id : Option String
deriving Repr, DecidableEq

/-- The album object of an item. -/
structure ApiAlbum where
  name : String
  images : List String
deriving Repr, DecidableEq

/-- `response.body.item`. -/
structure ApiItem where
  itemType : String
  name : String
  artists : List ApiArtist
  album : Option ApiAlbum
  spotifyUrl : String
  durationMs : Int
deriving Repr, DecidableEq

/-- `response.body` of `getMyCurrentPlayingTrack`. -/
structure PlaybackBody where
  item : Option ApiItem
  progressMs : Option Int
  isPlaying : Option Bool
deriving Repr, DecidableEq

/-- A successful HTTP response of `getMyCurrentPlayingTrack`. -/
structure PlaybackResponse where
  statusCode : Int
  body : Option PlaybackBody
deriving Repr, DecidableEq

/-- Outcome of one `getMyCurrentPlayingTrack` call: a response, or a thrown
error carrying the status code the source extracts from the error shape. -/
inductive FetchOutcome where
  | ok (r : PlaybackResponse)
  | err (statusCode : Option Int)
deriving Repr, DecidableEq

/-- Outcome of one `getArtist` call (image urls, or a thrown error). -/
inductive ArtistOutcome where
  | ok (images : List String)
  | err (statusCode : Option Int)
deriving Repr, DecidableEq

/-- The environment of one or more service calls: the current time and the
queued outcomes of each kind of external request. -/
structure SpotifyEnv where
  now : Int
  refreshOutcomes : List RefreshOutcome
  playbackOutcomes : List FetchOutcome
  artistOutcomes : List ArtistOutcome
deriving Repr, DecidableEq

/-- Execution record: service state, remaining environment, request counters. -/
structure Exec where
  svc : ServiceState
  env : SpotifyEnv
  refreshCount : Nat
  fetchCount : Nat
deriving Repr, DecidableEq

/-- Consume the next refresh outcome (an exhausted queue fails). -/
def takeRefresh (e : Exec) : RefreshOutcome × Exec :=
  match e.env.refreshOutcomes with
  | [] => (RefreshOutcome.failure, { e with refreshCount := e.refreshCount + 1 })
  | o :: rest =>
      (o, { e with env := { e.env with refreshOutcomes := rest },
                   refreshCount := e.refreshCount + 1 })

/-- Consume the next playback-fetch outcome (an exhausted queue errs). -/
def takeFetch (e : Exec) : FetchOutcome × Exec :=
  match e.env.playbackOutcomes with
  | [] => (FetchOutcome.err none, { e with fetchCount := e.fetchCount + 1 })
  | o :: rest =>
      (o, { e with env := { e.env with playbackOutcomes := rest },
                   fetchCount := e.fetchCount + 1 })

/-- Consume the next artist-fetch outcome. -/
def takeArtist (e : Exec) : ArtistOutcome × Exec :=
  match e.env.artistOutcomes with
  | [] => (ArtistOutcome.err none, e)
  | o :: rest => (o, { e with env := { e.env with artistOutcomes := rest } })

/-! ### Token Store (`refreshUserToken`, `getUserApi`) -/

/-- `SpotifyService.refreshUserToken`: on success stores the new access token
and expiry; on failure unlinks the user (revoked-consent handling). -/
def refreshUserToken (e : Exec) (discordId : String) : Bool × Exec :=
  match mapGet e.svc.users discordId with
  | none => (false, e)
  | some user =>
    let (ro, e1) := takeRefresh e
    match ro with
    | RefreshOutcome.success tok expiresIn =>
        let user1 := { user with accessToken := tok,
                                 expiresAt := e1.env.now + expiresIn * 1000 }
        (true, { e1 with svc := { e1.svc with
                   users := mapSet e1.svc.users discordId user1 } })
    | RefreshOutcome.failure =>
        (false, { e1 with svc := (unlinkUser e1.svc discordId).2 })

/-- The handle `getUserApi` returns: a `SpotifyWebApi` instance configured
with the chosen tokens. -/
structure ApiHandle where
  accessToken : String
  refreshToken : String
deriving Repr, DecidableEq

/-- `SpotifyService.getUserApi`: proactively refreshes when the token expires
within 60 seconds (unless `useFreshToken` is set, which reuses the token just
written by a reactive refresh). -/
def getUserApi (e : Exec) (discordId : String) (useFreshToken : Bool) :
    Option ApiHandle × Exec :=
  match mapGet e.svc.users discordId with
  | none => (none, e)
  | some user =>
    if useFreshToken = false ∧ e.env.now ≥ user.expiresAt - 60000 then
      let (refreshed, e1) := refreshUserToken e discordId
      if refreshed then
        match mapGet e1.svc.users discordId with
        | none => (none, e1)
        | some updated =>
            (some { accessToken := updated.accessToken,
                    refreshToken := updated.refreshToken }, e1)
      else (none, e1)
    else
      (some { accessToken := user.accessToken,
              refreshToken := user.refreshToken }, e)

/-! ### Playback Poller (`getCurrentlyPlaying`) -/

/-- The snapshot written on 204 / empty body / non-track items:
`{ discordId, lastUpdated: Date.now() }` — note it carries neither a track
nor a `lastTrackId`. -/
def absentSnapshot (e : Exec) (discordId : String) : Exec :=
  let playing : CurrentlyPlaying :=
    { discordId := discordId, track := none,
      lastUpdated := e.env.now, lastTrackId := none }
  { e with svc := { e.svc with
      currentlyPlaying := mapSet e.svc.currentlyPlaying discordId playing } }

/-- The best-effort artist-image fetch; every failure is swallowed. -/
def fetchArtistImage (e : Exec) (artistId : Option String) : Option String × Exec :=
  match artistId with
  | none => (none, e)
  | some _ =>
    let (ao, e1) := takeArtist e
    match ao with
    | ArtistOutcome.ok images => (images.head?, e1)
    | ArtistOutcome.err _ => (none, e1)

/-- Normalize a non-error `getMyCurrentPlayingTrack` response and store the
snapshot, exactly as the body of `getCurrentlyPlaying` does (shared between
the primary call and the post-refresh retry, whose source code is a verbatim
duplicate of this logic). -/
def processResponse (e : Exec) (discordId : String) (r : PlaybackResponse) :
    Option Track × Exec :=
  if r.statusCode = 204 then (none, absentSnapshot e discordId)
  else
    match r.body with
    | none => (none, absentSnapshot e discordId)
    | some body =>
      match body.item with
      | none => (none, absentSnapshot e discordId)
      | some item =>
        if item.itemType ≠ "track" then (none, absentSnapshot e discordId)
        else
          let artistId := item.artists.head?.bind (·.id)
          let (artistImageUrl, e1) := fetchArtistImage e artistId
          let track : Track :=
            { name := item.name,
              artist := String.intercalate ", " (item.artists.map (·.name)),
              artistId := artistId,
              artistImageUrl := artistImageUrl,
              album := item.album.map (·.name),
              url := item.spotifyUrl,
              imageUrl := item.album.bind (·.images.head?),
              duration := item.durationMs,
              progress := body.progressMs.getD 0,
              isPlaying := body.isPlaying.getD false }
          let trackId := track.name ++ "|" ++ track.artist
          let playing : CurrentlyPlaying :=
            { discordId := discordId, track := some track,
              lastUpdated := e1.env.now, lastTrackId := some trackId }
          (some track, { e1 with svc := { e1.svc with
              currentlyPlaying := mapSet e1.svc.currentlyPlaying discordId playing } })

/-- `SpotifyService.getCurrentlyPlaying`: proactive token acquisition, primary
fetch, and on a 403 error exactly one reactive refresh followed by one retry;
429 and all other errors return `null` without touching the snapshot. -/
def getCurrentlyPlaying (e : Exec) (discordId : String) : Option Track × Exec :=
  let (api1, e1) := getUserApi e discordId false
  match api1 with
  | none => (none, e1)
  | some _ =>
    let (po, e2) := takeFetch e1
    match po with
    | FetchOutcome.ok r => processResponse e2 discordId r
    | FetchOutcome.err st =>
      if st = some 403 then
        let (refreshed, e3) := refreshUserToken e2 discordId
        if refreshed then
          let (api2, e4) := getUserApi e3 discordId true
          match api2 with
          | none => (none, e4)
          | some _ =>
            let (po2, e5) := takeFetch e4
            match po2 with
            | FetchOutcome.ok r2 => processResponse e5 discordId r2
            | FetchOutcome.err _ => (none, e5)
        else (none, e3)
      else (none, e2)

/-! ### Reconciliation loop (src/events/ready.ts, first document)

`pollAndUpdateChannels` processes every linked user against the shared
channel.  The per-user message step is embedded below; message text and
embeds are abstracted away (they are rendering collaborators outside the
core), keeping which message id is edited or created and how the stored
`MessageRef` changes. -/

/-- A message in the channel's recent history, as far as the discovery
heuristic described by the spec would need it. -/
structure DiscordMsg where
  msgId : String
  authorIsBot : Bool
  embedUrl : Option String
  mentionsUser : Option String
deriving Repr, DecidableEq

/-- Environment of one per-user reconciliation step: the channel's recent
message history, which message ids still resolve (`messages.fetch`
succeeds), the id Discord would assign to a newly sent message, and whether
fetching the user profile succeeds. -/
structure ChannelEnv where
  history : List DiscordMsg
  resolvable : List String
  freshId : String
  userFetchOk : Bool
deriving Repr, DecidableEq

/-- The outbound effect of one per-user reconciliation step. -/
inductive MsgEffect where
  | editedMsg (mid : String)
  | sentNew (mid : String)
  | skippedUser
  | noAction
deriving Repr, DecidableEq

/-- The per-user body of `pollAndUpdateChannels` (ready.ts), given the
previous track id captured before polling: a playing user with a stored
message id edits it when it still resolves and otherwise sends a replacement;
a playing user without a stored message id sends an initial message; a
non-playing user causes no message mutation. -/
def updateUserStep (s : ServiceState) (discordId : String)
    (cenv : ChannelEnv) : MsgEffect × ServiceState :=
  let track := (mapGet s.currentlyPlaying discordId).bind (·.track)
  let messageId := getUserMessage s discordId
  match track with
  | none => (MsgEffect.noAction, s)
  | some _ =>
    if cenv.userFetchOk = false then (MsgEffect.skippedUser, s)
    else
      match messageId with
      | some mid =>
          if mid ∈ cenv.resolvable then (MsgEffect.editedMsg mid, s)
          else (MsgEffect.sentNew cenv.freshId,
                setUserMessage s discordId cenv.freshId)
      | none =>
          (MsgEffect.sentNew cenv.freshId,
           setUserMessage s discordId cenv.freshId)

/-- Environment of the startup validator: which channel ids still resolve and
which message ids still resolve. -/
structure ValidateEnv where
  validChannels : List String
  validMessages : List String
deriving Repr, DecidableEq

/-- One iteration of the channel-validation loop of `validatePersistedData`
(ready.ts): a dead channel removes the user's channel config (which cascades
to the message ref); a live channel with a dead stored message clears only
the message ref. -/
def validateChannelEntry (env : ValidateEnv) (acc : ServiceState)
    (entry : String × String) : ServiceState :=
  if entry.2 ∈ env.validChannels then
    match getUserMessage acc entry.1 with
    | some m => if m ∈ env.validMessages then acc else clearUserMessage acc entry.1
    | none => acc
  else
    (removeUserChannel acc entry.1).2

/-- One iteration of the orphan sweep of `validatePersistedData`: a linked
user with a message ref but no entry in the channel map captured at the start
gets the message ref cleared. -/
def validateOrphanEntry (channels0 : List (String × String)) (acc : ServiceState)
    (discordId : String) : ServiceState :=
  match getUserMessage acc discordId with
  | some _ => if mapHas channels0 discordId then acc else clearUserMessage acc discordId
  | none => acc

/-- `validatePersistedData` (ready.ts): iterates over a snapshot of the
channel map pruning dead channels and dead messages, then sweeps orphaned
message refs of linked users.  It never creates or adopts a message ref. -/
def validatePersistedData (s : ServiceState) (env : ValidateEnv) : ServiceState :=
  let channels0 := s.channels
  let linked0 := getAllLinkedUsers s
  let s1 := channels0.foldl (validateChannelEntry env) s
  linked0.foldl (validateOrphanEntry channels0) s1

/-! ### Reference semantics of the map-returning getters

`getAllChannels` and `getAllCurrentlyPlaying` execute `new Map(this.xxx)`:
they allocate a fresh `Map` holding a copy of the entries.  To state what
that buys the caller we model a store of `Map` objects addressed by
allocation index, the service holding an address into it. -/

structure Store (α : Type) where
  cells : List (List (String × α))
deriving Repr

/-- Dereference a `Map` address. -/
def Store.readCell {α : Type} (st : Store α) (a : Nat) : List (String × α) :=
  (st.cells.get? a).getD []

/-- `new Map(contents)`: allocate a fresh cell. -/
def Store.allocCell {α : Type} (st : Store α) (v : List (String × α)) :
    Nat × Store α :=
  (st.cells.length, ⟨st.cells ++ [v]⟩)

/-- An arbitrary caller-side mutation of a `Map` object. -/
def Store.writeCell {α : Type} (st : Store α) (a : Nat) (v : List (String × α)) :
    Store α :=
  ⟨st.cells.set a v⟩

/-- `getAllChannels` / `getAllCurrentlyPlaying` under reference semantics:
read the service's own cell and return a freshly allocated copy. -/
def getAllRef {α : Type} (st : Store α) (svcAddr : Nat) : Nat × Store α :=
  Store.allocCell st (Store.readCell st svcAddr)

/-! ### Helper lemmas -/

theorem mapGet_mapDelete_of_none {α : Type} (m : List (String × α)) (k k' : String)
    (h : mapGet m k' = none) : mapGet (mapDelete m k) k' = none := by
  by_cases hk : k' = k
  · rw [hk]
    exact mapGet_mapDelete_self m k
  · rw [mapGet_mapDelete_ne m k k' hk]
    exact h

theorem foldl_preserve {β : Type} (P : ServiceState → Prop)
    (f : ServiceState → β → ServiceState)
    (hf : ∀ a b, P a → P (f a b)) :
    ∀ (l : List β) (a : ServiceState), P a → P (l.foldl f a) := by
  intro l
  induction l with
  | nil => intro a ha; exact ha
  | cons b bs ih =>
    intro a ha
    exact ih (f a b) (hf a b ha)

theorem listGet?_set_append {α : Type} (l : List α) (v w : α) (a : Nat)
    (h : a < l.length) : ((l ++ [v]).set l.length w).get? a = l.get? a := by
  induction l generalizing a with
  | nil => exact absurd h (Nat.not_lt_zero a)
  | cons x xs ih =>
    cases a with
    | zero => simp [List.set]
    | succ n =>
      have hn : n < xs.length := Nat.lt_of_succ_lt_succ h
      simp [List.set, ih n hn, List.getElem?_append, hn]

/-! ### Claims about the registries -/

/-- Claim C7: `unlinkUser(U)` deletes U's LinkedAccount, U's PlaybackSnapshot
and U's MessageRef, and leaves the ChannelConfig map entirely unchanged. -/
theorem unlinkUser_deletes_user_data_keeps_channels (s : ServiceState) (U : String)
    (h : isLinked s U = true) :
    (unlinkUser s U).1 = true ∧
    mapGet (unlinkUser s U).2.users U = none ∧
    mapGet (unlinkUser s U).2.currentlyPlaying U = none ∧
    mapGet (unlinkUser s U).2.messages U = none ∧
    (unlinkUser s U).2.channels = s.channels := by
  have hh : mapHas s.users U = true := h
  simp [unlinkUser, hh, mapGet_mapDelete_self]

/-- Witness for C7 at a concrete linked user. -/
theorem unlinkUser_deletes_user_data_keeps_channels_witness :
    (unlinkUser { users := [("A", ⟨"A", "at", "rt", 1000⟩)],
                  currentlyPlaying := [("A", ⟨"A", none, 5, some "S|X"⟩)],
                  channels := [("A", "C")],
                  messages := [("A", "m1")] } "A").2.channels = [("A", "C")] := by
  have h := unlinkUser_deletes_user_data_keeps_channels
    { users := [("A", ⟨"A", "at", "rt", 1000⟩)],
      currentlyPlaying := [("A", ⟨"A", none, 5, some "S|X"⟩)],
      channels := [("A", "C")],
      messages := [("A", "m1")] } "A" (by decide)
  exact h.2.2.2.2

/-- Claim C2 counterexample: with users A and B both mapped to channel C,
`unlinkUser(A)` does NOT remove the entry A→C — the whole channel map is
left untouched, so `getAllChannels()` still contains A→C. -/
theorem unlink_shared_channel_cex :
    mapGet (getAllChannels (unlinkUser
        { users := [("A", ⟨"A", "atA", "rtA", 1000⟩), ("B", ⟨"B", "atB", "rtB", 1000⟩)],
          currentlyPlaying := [], channels := [("A", "C"), ("B", "C")],
          messages := [] } "A").2) "B" = some "C" ∧
    mapGet (getAllChannels (unlinkUser
        { users := [("A", ⟨"A", "atA", "rtA", 1000⟩), ("B", ⟨"B", "atB", "rtB", 1000⟩)],
          currentlyPlaying := [], channels := [("A", "C"), ("B", "C")],
          messages := [] } "A").2) "A" = some "C" ∧
    mapGet (getAllChannels (unlinkUser
        { users := [("A", ⟨"A", "atA", "rtA", 1000⟩), ("B", ⟨"B", "atB", "rtB", 1000⟩)],
          currentlyPlaying := [], channels := [("A", "C"), ("B", "C")],
          messages := [] } "A").2) "A" ≠ none := by
  refine ⟨by decide, by decide, by decide⟩

/-- Claim C2 (amended): for distinct users A and B sharing channel C,
`unlinkUser(A)` leaves `getAllChannels()` containing B→C — and also still
containing A→C, since unlink never touches the channel map. -/
theorem unlink_preserves_shared_channel (s : ServiceState) (A B C : String)
    (hAB : A ≠ B)
    (hA : mapGet s.channels A = some C) (hB : mapGet s.channels B = some C) :
    mapGet (getAllChannels (unlinkUser s A).2) B = some C ∧
    mapGet (getAllChannels (unlinkUser s A).2) A = some C := by
  cases h : mapHas s.users A <;>
    simp [unlinkUser, h, getAllChannels, hA, hB]

/-- Witness for the amended C2 at concrete users A, B and channel C. -/
theorem unlink_preserves_shared_channel_witness :
    mapGet (getAllChannels (unlinkUser
        { users := [("A", ⟨"A", "atA", "rtA", 1000⟩), ("B", ⟨"B", "atB", "rtB", 1000⟩)],
          currentlyPlaying := [], channels := [("A", "C"), ("B", "C")],
          messages := [] } "A").2) "B" = some "C" :=
  (unlink_preserves_shared_channel
    { users := [("A", ⟨"A", "atA", "rtA", 1000⟩), ("B", ⟨"B", "atB", "rtB", 1000⟩)],
      currentlyPlaying := [], channels := [("A", "C"), ("B", "C")],
      messages := [] } "A" "B" "C" (by decide) (by decide) (by decide)).1

/-- Claim C8: `removeUserChannel(U)` with no channel entry for U returns
`false` and leaves the whole state (in particular the MessageRef map)
unchanged; when a channel entry exists it is deleted and the MessageRef
entry is cleared. -/
theorem removeUserChannel_no_entry_noop (s : ServiceState) (U : String) :
    (mapGet s.channels U = none → removeUserChannel s U = (false, s)) ∧
    (∀ c, mapGet s.channels U = some c →
      (removeUserChannel s U).1 = true ∧
      mapGet (removeUserChannel s U).2.channels U = none ∧
      mapGet (removeUserChannel s U).2.messages U = none) := by
  constructor
  · intro h
    have hh : mapHas s.channels U = false := by
      simp [mapHas, h]
    simp [removeUserChannel, hh]
  · intro c hc
    have hh : mapHas s.channels U = true := by
      simp [mapHas, hc]
    simp [removeUserChannel, hh, mapGet_mapDelete_self]

/-- Witness for C8: no channel entry for "U" leaves the stored message id
intact. -/
theorem removeUserChannel_no_entry_noop_witness :
    removeUserChannel { users := [], currentlyPlaying := [],
                        channels := [("B", "C")], messages := [("U", "m7")] } "U"
      = (false, { users := [], currentlyPlaying := [],
                  channels := [("B", "C")], messages := [("U", "m7")] }) :=
  (removeUserChannel_no_entry_noop
    { users := [], currentlyPlaying := [],
      channels := [("B", "C")], messages := [("U", "m7")] } "U").1 (by decide)

/-- Claim C9: `setUserMessage(U, m)` with an empty id deletes the MessageRef
entry (so `getUserMessage` returns absent); with a non-empty id it stores it.
-/
theorem setUserMessage_empty_deletes (s : ServiceState) (U m : String) :
    (m = "" → getUserMessage (setUserMessage s U m) U = none) ∧
    (m ≠ "" → getUserMessage (setUserMessage s U m) U = some m) := by
  constructor
  · intro h
    subst h
    simp [setUserMessage, getUserMessage, mapGet_mapDelete_self]
  · intro h
    simp [setUserMessage, getUserMessage, h, mapGet_mapSet_self]

/-- Witness for C9 at a state that already stores a message id for "U". -/
theorem setUserMessage_empty_deletes_witness :
    getUserMessage (setUserMessage
      { users := [], currentlyPlaying := [], channels := [],
        messages := [("U", "m1")] } "U" "") "U" = none ∧
    getUserMessage (setUserMessage
      { users := [], currentlyPlaying := [], channels := [],
        messages := [("U", "m1")] } "U" "m2") "U" = some "m2" :=
  ⟨(setUserMessage_empty_deletes
      { users := [], currentlyPlaying := [], channels := [],
        messages := [("U", "m1")] } "U" "").1 rfl,
   (setUserMessage_empty_deletes
      { users := [], currentlyPlaying := [], channels := [],
        messages := [("U", "m1")] } "U" "m2").2 (by decide)⟩

/-- Claim C10: `getAllChannels()` and `getAllCurrentlyPlaying()` return fresh
copies: writing anything into the returned `Map` object leaves the service's
own cell — hence every subsequent getter — unchanged. -/
theorem getAll_fresh_copy (stC : Store String) (stP : Store CurrentlyPlaying)
    (aC aP : Nat) (hC : aC < stC.cells.length) (hP : aP < stP.cells.length)
    (mutC : List (String × String)) (mutP : List (String × CurrentlyPlaying)) :
    (∀ id, mapGet (Store.readCell
        (Store.writeCell (getAllRef stC aC).2 (getAllRef stC aC).1 mutC) aC) id
      = mapGet (Store.readCell stC aC) id) ∧
    (Store.readCell (Store.writeCell (getAllRef stC aC).2 (getAllRef stC aC).1 mutC) aC
      = Store.readCell stC aC) ∧
    (Store.readCell (Store.writeCell (getAllRef stP aP).2 (getAllRef stP aP).1 mutP) aP
      = Store.readCell stP aP) := by
  have key : ∀ (α : Type) (st : Store α) (a : Nat), a < st.cells.length →
      ∀ (vm : List (String × α)),
      Store.readCell (Store.writeCell (getAllRef st a).2 (getAllRef st a).1 vm) a
        = Store.readCell st a := by
    intro α st a ha vm
    have hs := listGet?_set_append st.cells (Store.readCell st a) vm a ha
    simp only [Store.readCell] at hs
    simp only [getAllRef, Store.allocCell, Store.writeCell, Store.readCell]
    rw [hs]
  refine ⟨?_, key String stC aC hC mutC, key CurrentlyPlaying stP aP hP mutP⟩
  intro id
  rw [key String stC aC hC mutC]

/-- Witness for C10 on concrete one-cell stores. -/
theorem getAll_fresh_copy_witness :
    Store.readCell (Store.writeCell
        (getAllRef (⟨[[("A", "C")]]⟩ : Store String) 0).2
        (getAllRef (⟨[[("A", "C")]]⟩ : Store String) 0).1 []) 0
      = [("A", "C")] := by
  have h := (getAll_fresh_copy ⟨[[("A", "C")]]⟩
      (⟨[[("A", ⟨"A", none, 5, none⟩)]]⟩ : Store CurrentlyPlaying) 0 0
      (by decide) (by decide) [] []).2.1
  rw [h]
  rfl

/-! ### Claims about the Token Store -/

theorem refreshUserToken_count (e : Exec) (U : String) (u : SpotifyUser)
    (hu : mapGet e.svc.users U = some u) :
    (refreshUserToken e U).2.refreshCount = e.refreshCount + 1 := by
  simp only [refreshUserToken, hu, takeRefresh]
  cases hro : e.env.refreshOutcomes with
  | nil => simp
  | cons o rest => cases o <;> simp

/-- Claim C5: with `useFreshToken=false`, `getUserApi` issues no refresh when
the stored token expires more than 60 seconds from now and returns a handle
on the stored access token; it issues exactly one refresh exchange when the
remaining lifetime is 60 seconds or less. -/
theorem getUserApi_refresh_margin (e : Exec) (U : String) (u : SpotifyUser)
    (hu : mapGet e.svc.users U = some u) :
    (u.expiresAt - e.env.now > 60000 →
      getUserApi e U false =
        (some { accessToken := u.accessToken, refreshToken := u.refreshToken }, e)) ∧
    (u.expiresAt - e.env.now ≤ 60000 →
      (getUserApi e U false).2.refreshCount = e.refreshCount + 1) := by
  constructor
  · intro h
    have hge : ¬ (e.env.now ≥ u.expiresAt - 60000) := by omega
    simp only [getUserApi, hu]
    split
    · next hcond => exact absurd hcond.2 hge
    · rfl
  · intro h
    have hge : e.env.now ≥ u.expiresAt - 60000 := by omega
    have hc := refreshUserToken_count e U u hu
    simp only [getUserApi, hu]
    split
    · cases hres : refreshUserToken e U with
      | mk refreshed e1 =>
        rw [hres] at hc
        cases refreshed with
        | false => simpa using hc
        | true => cases hm : mapGet e1.svc.users U <;> simpa [hm] using hc
    · next hcond => exact absurd ⟨trivial, hge⟩ hcond

/-- Witness for C5: a token expiring far in the future is used as stored,
and one expiring now triggers exactly one refresh. -/
theorem getUserApi_refresh_margin_witness :
    getUserApi
      { svc := { users := [("U", ⟨"U", "tok", "ref", 1000000⟩)],
                 currentlyPlaying := [], channels := [], messages := [] },
        env := { now := 1000, refreshOutcomes := [], playbackOutcomes := [],
                 artistOutcomes := [] },
        refreshCount := 0, fetchCount := 0 } "U" false
      = (some { accessToken := "tok", refreshToken := "ref" },
         { svc := { users := [("U", ⟨"U", "tok", "ref", 1000000⟩)],
                    currentlyPlaying := [], channels := [], messages := [] },
           env := { now := 1000, refreshOutcomes := [], playbackOutcomes := [],
                    artistOutcomes := [] },
           refreshCount := 0, fetchCount := 0 }) ∧
    (getUserApi
      { svc := { users := [("U", ⟨"U", "tok", "ref", 1000⟩)],
                 currentlyPlaying := [], channels := [], messages := [] },
        env := { now := 1000, refreshOutcomes := [RefreshOutcome.success "new" 3600],
                 playbackOutcomes := [], artistOutcomes := [] },
        refreshCount := 0, fetchCount := 0 } "U" false).2.refreshCount = 1 :=
  ⟨(getUserApi_refresh_margin
      { svc := { users := [("U", ⟨"U", "tok", "ref", 1000000⟩)],
                 currentlyPlaying := [], channels := [], messages := [] },
        env := { now := 1000, refreshOutcomes := [], playbackOutcomes := [],
                 artistOutcomes := [] },
        refreshCount := 0, fetchCount := 0 } "U" ⟨"U", "tok", "ref", 1000000⟩ rfl).1
    (by decide),
   (getUserApi_refresh_margin
      { svc := { users := [("U", ⟨"U", "tok", "ref", 1000⟩)],
                 currentlyPlaying := [], channels := [], messages := [] },
        env := { now := 1000, refreshOutcomes := [RefreshOutcome.success "new" 3600],
                 playbackOutcomes := [], artistOutcomes := [] },
        refreshCount := 0, fetchCount := 0 } "U" ⟨"U", "tok", "ref", 1000⟩ rfl).2
    (by decide)⟩

/-- Claim C4: when the refresh-token exchange fails, the LinkedAccount is
deleted, and a subsequent `getUserApi` call returns `null` immediately
without issuing another refresh request (the execution record, counters
included, is returned unchanged). -/
theorem refresh_failure_unlinks (e : Exec) (U : String) (u : SpotifyUser)
    (rrest : List RefreshOutcome)
    (hu : mapGet e.svc.users U = some u)
    (hro : e.env.refreshOutcomes = RefreshOutcome.failure :: rrest) :
    (refreshUserToken e U).1 = false ∧
    mapGet (refreshUserToken e U).2.svc.users U = none ∧
    getUserApi (refreshUserToken e U).2 U false =
      (none, (refreshUserToken e U).2) := by
  have hhas : mapHas e.svc.users U = true := by
    simp [mapHas, hu]
  have hstep : (refreshUserToken e U).1 = false ∧
      mapGet (refreshUserToken e U).2.svc.users U = none := by
    simp only [refreshUserToken, hu, takeRefresh, hro]
    simp [unlinkUser, hhas, mapGet_mapDelete_self]
  refine ⟨hstep.1, hstep.2, ?_⟩
  simp only [getUserApi, hstep.2]

/-- Witness for C4 at a concrete linked user whose refresh is rejected. -/
theorem refresh_failure_unlinks_witness :
    mapGet (refreshUserToken
      { svc := { users := [("U", ⟨"U", "tok", "ref", 1000⟩)],
                 currentlyPlaying := [], channels := [], messages := [] },
        env := { now := 5000, refreshOutcomes := [RefreshOutcome.failure],
                 playbackOutcomes := [], artistOutcomes := [] },
        refreshCount := 0, fetchCount := 0 } "U").2.svc.users "U" = none ∧
    getUserApi (refreshUserToken
      { svc := { users := [("U", ⟨"U", "tok", "ref", 1000⟩)],
                 currentlyPlaying := [], channels := [], messages := [] },
        env := { now := 5000, refreshOutcomes := [RefreshOutcome.failure],
                 playbackOutcomes := [], artistOutcomes := [] },
        refreshCount := 0, fetchCount := 0 } "U").2 "U" false
      = (none, (refreshUserToken
      { svc := { users := [("U", ⟨"U", "tok", "ref", 1000⟩)],
                 currentlyPlaying := [], channels := [], messages := [] },
        env := { now := 5000, refreshOutcomes := [RefreshOutcome.failure],
                 playbackOutcomes := [], artistOutcomes := [] },
        refreshCount := 0, fetchCount := 0 } "U").2) :=
  ⟨(refresh_failure_unlinks
      { svc := { users := [("U", ⟨"U", "tok", "ref", 1000⟩)],
                 currentlyPlaying := [], channels := [], messages := [] },
        env := { now := 5000, refreshOutcomes := [RefreshOutcome.failure],
                 playbackOutcomes := [], artistOutcomes := [] },
        refreshCount := 0, fetchCount := 0 } "U" ⟨"U", "tok", "ref", 1000⟩ [] rfl rfl).2.1,
   (refresh_failure_unlinks
      { svc := { users := [("U", ⟨"U", "tok", "ref", 1000⟩)],
                 currentlyPlaying := [], channels := [], messages := [] },
        env := { now := 5000, refreshOutcomes := [RefreshOutcome.failure],
                 playbackOutcomes := [], artistOutcomes := [] },
        refreshCount := 0, fetchCount := 0 } "U" ⟨"U", "tok", "ref", 1000⟩ [] rfl rfl).2.2⟩

/-! ### Claims about the Playback Poller -/

theorem getUserApi_not_linked (e : Exec) (U : String) (b : Bool)
    (h : mapGet e.svc.users U = none) : getUserApi e U b = (none, e) := by
  simp only [getUserApi, h]

theorem getUserApi_fresh_token (e : Exec) (U : String) (u : SpotifyUser)
    (hu : mapGet e.svc.users U = some u)
    (hge : ¬ (e.env.now ≥ u.expiresAt - 60000)) :
    getUserApi e U false =
      (some { accessToken := u.accessToken, refreshToken := u.refreshToken }, e) := by
  simp only [getUserApi, hu]
  split
  · next hcond => exact absurd hcond.2 hge
  · rfl

theorem getUserApi_useFresh (e : Exec) (U : String) (u : SpotifyUser)
    (hu : mapGet e.svc.users U = some u) :
    getUserApi e U true =
      (some { accessToken := u.accessToken, refreshToken := u.refreshToken }, e) := by
  simp only [getUserApi, hu]
  split
  · next hcond => exact absurd hcond.1 (by decide)
  · rfl

theorem getUserApi_useFresh_eq (e : Exec) (U : String) :
    getUserApi e U true =
      (match mapGet e.svc.users U with
       | none => (none, e)
       | some u =>
           (some { accessToken := u.accessToken, refreshToken := u.refreshToken }, e)) := by
  cases h : mapGet e.svc.users U with
  | none => simp [getUserApi, h]
  | some u => simp [getUserApi, h]

theorem refreshUserToken_failure_eq (e : Exec) (U : String) (u : SpotifyUser)
    (rrest : List RefreshOutcome)
    (hu : mapGet e.svc.users U = some u)
    (hro : e.env.refreshOutcomes = RefreshOutcome.failure :: rrest) :
    refreshUserToken e U =
      (false,
       { svc := (unlinkUser e.svc U).2,
         env := { e.env with refreshOutcomes := rrest },
         refreshCount := e.refreshCount + 1,
         fetchCount := e.fetchCount }) := by
  simp only [refreshUserToken, hu, takeRefresh, hro]

theorem refreshUserToken_success_eq (e : Exec) (U : String) (u : SpotifyUser)
    (tok : String) (expiresIn : Int) (rrest : List RefreshOutcome)
    (hu : mapGet e.svc.users U = some u)
    (hro : e.env.refreshOutcomes = RefreshOutcome.success tok expiresIn :: rrest) :
    refreshUserToken e U =
      (true,
       { svc := { e.svc with users := mapSet e.svc.users U ({ u with accessToken := tok, expiresAt := e.env.now + expiresIn * 1000 }) },
         env := { e.env with refreshOutcomes := rrest },
         refreshCount := e.refreshCount + 1,
         fetchCount := e.fetchCount }) := by
  simp only [refreshUserToken, hu, takeRefresh, hro]

theorem getUserApi_expired_refresh_failed (e : Exec) (U : String) (u : SpotifyUser)
    (rrest : List RefreshOutcome)
    (hu : mapGet e.svc.users U = some u)
    (hexp : e.env.now ≥ u.expiresAt - 60000)
    (hro : e.env.refreshOutcomes = RefreshOutcome.failure :: rrest) :
    getUserApi e U false =
      (none,
       { svc := (unlinkUser e.svc U).2,
         env := { e.env with refreshOutcomes := rrest },
         refreshCount := e.refreshCount + 1,
         fetchCount := e.fetchCount }) := by
  simp only [getUserApi, hu]
  split
  · rw [refreshUserToken_failure_eq e U u rrest hu hro]
    simp
  · next hcond => exact absurd ⟨trivial, hexp⟩ hcond

/-- The condition under which `getCurrentlyPlaying` stores an empty snapshot:
a 204 status, a missing body, a body without an item, or a non-track item. -/
def emptyPlayback (r : PlaybackResponse) : Bool :=
  if r.statusCode = 204 then true
  else
    match r.body with
    | none => true
    | some body =>
      match body.item with
      | none => true
      | some item => if item.itemType ≠ "track" then true else false

theorem processResponse_empty (e : Exec) (U : String) (r : PlaybackResponse)
    (h : emptyPlayback r = true) :
    processResponse e U r = (none, absentSnapshot e U) := by
  by_cases h204 : r.statusCode = 204
  · simp [processResponse, h204]
  · cases hb : r.body with
    | none => simp [processResponse, h204, hb]
    | some body =>
      cases hi : body.item with
      | none => simp [processResponse, h204, hb, hi]
      | some item =>
        by_cases ht : item.itemType = "track"
        · exfalso
          simp [emptyPlayback, h204, hb, hi, ht] at h
        · simp [processResponse, h204, hb, hi, ht]

theorem processResponse_counts (e : Exec) (U : String) (r : PlaybackResponse) :
    (processResponse e U r).2.fetchCount = e.fetchCount ∧
    (processResponse e U r).2.refreshCount = e.refreshCount := by
  by_cases h204 : r.statusCode = 204
  · simp [processResponse, h204, absentSnapshot]
  · cases hb : r.body with
    | none => simp [processResponse, h204, hb, absentSnapshot]
    | some body =>
      cases hi : body.item with
      | none => simp [processResponse, h204, hb, hi, absentSnapshot]
      | some item =>
        by_cases ht : item.itemType = "track"
        · cases ha : item.artists.head?.bind (·.id) with
          | none =>
              simp [processResponse, h204, hb, hi, ht, fetchArtistImage, ha]
          | some aid =>
              cases hao : e.env.artistOutcomes with
              | nil =>
                  simp [processResponse, h204, hb, hi, ht, fetchArtistImage, ha,
                        takeArtist, hao]
              | cons o rest =>
                  cases o <;>
                    simp [processResponse, h204, hb, hi, ht, fetchArtistImage, ha,
                          takeArtist, hao]
        · simp [processResponse, h204, hb, hi, ht, absentSnapshot]

theorem processResponse_fetchCount (e : Exec) (U : String) (r : PlaybackResponse) :
    (processResponse e U r).2.fetchCount = e.fetchCount :=
  (processResponse_counts e U r).1

theorem processResponse_refreshCount (e : Exec) (U : String) (r : PlaybackResponse) :
    (processResponse e U r).2.refreshCount = e.refreshCount :=
  (processResponse_counts e U r).2

/-- Claim C1 counterexample.  Scenario one: with no valid token available the
call returns absent but does NOT update the snapshot (`lastUpdatedAt` stays
at its old value 5, not `now = 1000`).  Scenario two: on a 204 empty-playback
response, the snapshot is overwritten with a record that has NO
`lastTrackId`, so the previously stored fingerprint "Song|Artist" is erased
rather than left untouched. -/
theorem getCurrentlyPlaying_absent_cex :
    ((getCurrentlyPlaying
      { svc := { users := [],
                 currentlyPlaying := [("A", ⟨"A", none, 5, some "Song|Artist"⟩)],
                 channels := [], messages := [] },
        env := { now := 1000, refreshOutcomes := [], playbackOutcomes := [],
                 artistOutcomes := [] },
        refreshCount := 0, fetchCount := 0 } "A").1 = none ∧
     (mapGet (getCurrentlyPlaying
      { svc := { users := [],
                 currentlyPlaying := [("A", ⟨"A", none, 5, some "Song|Artist"⟩)],
                 channels := [], messages := [] },
        env := { now := 1000, refreshOutcomes := [], playbackOutcomes := [],
                 artistOutcomes := [] },
        refreshCount := 0, fetchCount := 0 } "A").2.svc.currentlyPlaying "A").map
          (fun cp => cp.lastUpdated) = some 5 ∧
     (5 : Int) ≠ 1000) ∧
    (getLastTrackId
      { users := [("A", ⟨"A", "tok", "ref", 1000000⟩)],
        currentlyPlaying := [("A", ⟨"A", none, 5, some "Song|Artist"⟩)],
        channels := [], messages := [] } "A" = some "Song|Artist" ∧
     getLastTrackId (getCurrentlyPlaying
      { svc := { users := [("A", ⟨"A", "tok", "ref", 1000000⟩)],
                 currentlyPlaying := [("A", ⟨"A", none, 5, some "Song|Artist"⟩)],
                 channels := [], messages := [] },
        env := { now := 1000, refreshOutcomes := [],
                 playbackOutcomes := [FetchOutcome.ok ⟨204, none⟩],
                 artistOutcomes := [] },
        refreshCount := 0, fetchCount := 0 } "A").2.svc "A" = none ∧
     some "Song|Artist" ≠ (none : Option String)) := by
  refine ⟨⟨by decide, by decide, by decide⟩, ⟨by decide, by decide, by decide⟩⟩

/-- Claim C1 (amended): when no valid token is available the call returns
absent but never writes the `track=absent ∧ lastUpdatedAt=now` snapshot the
claim describes — a user absent from the users map leaves the state
completely untouched, and a user whose stored token is expired and whose
refresh exchange fails has the account, snapshot and message ref deleted
outright (the `unlinkUser` side effect); when the API signals no active
playback (204 / empty body) or a non-track item, the call returns absent and
the snapshot is overwritten with `track=absent`, `lastUpdatedAt=now` and NO
fingerprint: the stored `lastTrackId` is cleared, not preserved. -/
theorem getCurrentlyPlaying_absent_cases (e : Exec) (U : String) :
    (mapGet e.svc.users U = none → getCurrentlyPlaying e U = (none, e)) ∧
    (∀ u r rest, mapGet e.svc.users U = some u →
      u.expiresAt - e.env.now > 60000 →
      e.env.playbackOutcomes = FetchOutcome.ok r :: rest →
      emptyPlayback r = true →
      (getCurrentlyPlaying e U).1 = none ∧
      mapGet (getCurrentlyPlaying e U).2.svc.currentlyPlaying U =
        some { discordId := U, track := none,
               lastUpdated := e.env.now, lastTrackId := none }) ∧
    (∀ u rrest, mapGet e.svc.users U = some u →
      e.env.now ≥ u.expiresAt - 60000 →
      e.env.refreshOutcomes = RefreshOutcome.failure :: rrest →
      (getCurrentlyPlaying e U).1 = none ∧
      mapGet (getCurrentlyPlaying e U).2.svc.users U = none ∧
      mapGet (getCurrentlyPlaying e U).2.svc.currentlyPlaying U = none ∧
      mapGet (getCurrentlyPlaying e U).2.svc.messages U = none) := by
  refine ⟨?_, ?_, ?_⟩
  · intro h
    simp only [getCurrentlyPlaying, getUserApi_not_linked e U false h]
  · intro u r rest hu hfresh hpb hempty
    have hge : ¬ (e.env.now ≥ u.expiresAt - 60000) := by omega
    simp only [getCurrentlyPlaying, getUserApi_fresh_token e U u hu hge]
    simp only [takeFetch, hpb]
    rw [processResponse_empty _ _ _ hempty]
    simp [absentSnapshot, mapGet_mapSet_self]
  · intro u rrest hu hexp hro
    have hhas : mapHas e.svc.users U = true := by
      simp [mapHas, hu]
    simp only [getCurrentlyPlaying,
               getUserApi_expired_refresh_failed e U u rrest hu hexp hro]
    simp [unlinkUser, hhas, mapGet_mapDelete_self]

/-- Witness for the amended C1: a missing user, a 204 response for a linked
user with a fresh token, and a linked user with an expired token whose
refresh fails and whose snapshot entry is deleted. -/
theorem getCurrentlyPlaying_absent_cases_witness :
    getCurrentlyPlaying
      { svc := { users := [], currentlyPlaying := [], channels := [], messages := [] },
        env := { now := 1000, refreshOutcomes := [], playbackOutcomes := [],
                 artistOutcomes := [] },
        refreshCount := 0, fetchCount := 0 } "A"
      = (none,
         { svc := { users := [], currentlyPlaying := [], channels := [], messages := [] },
           env := { now := 1000, refreshOutcomes := [], playbackOutcomes := [],
                    artistOutcomes := [] },
           refreshCount := 0, fetchCount := 0 }) ∧
    mapGet (getCurrentlyPlaying
      { svc := { users := [("A", ⟨"A", "tok", "ref", 1000000⟩)],
                 currentlyPlaying := [("A", ⟨"A", none, 5, some "Song|Artist"⟩)],
                 channels := [], messages := [] },
        env := { now := 1000, refreshOutcomes := [],
                 playbackOutcomes := [FetchOutcome.ok ⟨204, none⟩],
                 artistOutcomes := [] },
        refreshCount := 0, fetchCount := 0 } "A").2.svc.currentlyPlaying "A"
      = some { discordId := "A", track := none, lastUpdated := 1000,
               lastTrackId := none } ∧
    mapGet (getCurrentlyPlaying
      { svc := { users := [("A", ⟨"A", "tok", "ref", 1000⟩)],
                 currentlyPlaying := [("A", ⟨"A", none, 5, some "Song|Artist"⟩)],
                 channels := [], messages := [("A", "m1")] },
        env := { now := 5000, refreshOutcomes := [RefreshOutcome.failure],
                 playbackOutcomes := [], artistOutcomes := [] },
        refreshCount := 0, fetchCount := 0 } "A").2.svc.currentlyPlaying "A"
      = none :=
  ⟨(getCurrentlyPlaying_absent_cases
      { svc := { users := [], currentlyPlaying := [], channels := [], messages := [] },
        env := { now := 1000, refreshOutcomes := [], playbackOutcomes := [],
                 artistOutcomes := [] },
        refreshCount := 0, fetchCount := 0 } "A").1 rfl,
   ((getCurrentlyPlaying_absent_cases
      { svc := { users := [("A", ⟨"A", "tok", "ref", 1000000⟩)],
                 currentlyPlaying := [("A", ⟨"A", none, 5, some "Song|Artist"⟩)],
                 channels := [], messages := [] },
        env := { now := 1000, refreshOutcomes := [],
                 playbackOutcomes := [FetchOutcome.ok ⟨204, none⟩],
                 artistOutcomes := [] },
        refreshCount := 0, fetchCount := 0 } "A").2.1
      ⟨"A", "tok", "ref", 1000000⟩ ⟨204, none⟩ [] rfl (by decide) rfl (by decide)).2,
   ((getCurrentlyPlaying_absent_cases
      { svc := { users := [("A", ⟨"A", "tok", "ref", 1000⟩)],
                 currentlyPlaying := [("A", ⟨"A", none, 5, some "Song|Artist"⟩)],
                 channels := [], messages := [("A", "m1")] },
        env := { now := 5000, refreshOutcomes := [RefreshOutcome.failure],
                 playbackOutcomes := [], artistOutcomes := [] },
        refreshCount := 0, fetchCount := 0 } "A").2.2
      ⟨"A", "tok", "ref", 1000⟩ [] rfl (by decide) rfl).2.2.1⟩

/-- Claim C6: a 403 on the primary fetch triggers exactly one reactive
refresh-token exchange; on refresh success exactly one reissue of the same
playback request follows (two playback fetches in total), and if the refresh
fails (one fetch in total) or the retried request fails again, the call
returns absent with no further refresh or retry. -/
theorem getCurrentlyPlaying_403_single_retry
    (e : Exec) (U : String) (u : SpotifyUser)
    (ro : RefreshOutcome) (po2 : FetchOutcome) (rest : List FetchOutcome)
    (rrest : List RefreshOutcome)
    (hu : mapGet e.svc.users U = some u)
    (hfresh : u.expiresAt - e.env.now > 60000)
    (hpb : e.env.playbackOutcomes = FetchOutcome.err (some 403) :: po2 :: rest)
    (hro : e.env.refreshOutcomes = ro :: rrest)
    (hrc : e.refreshCount = 0) (hfc : e.fetchCount = 0) :
    ((getCurrentlyPlaying e U).2.refreshCount = 1) ∧
    (ro = RefreshOutcome.failure →
       (getCurrentlyPlaying e U).1 = none ∧
       (getCurrentlyPlaying e U).2.fetchCount = 1) ∧
    (∀ tok expIn, ro = RefreshOutcome.success tok expIn →
       (getCurrentlyPlaying e U).2.fetchCount = 2 ∧
       (∀ c, po2 = FetchOutcome.err c → (getCurrentlyPlaying e U).1 = none)) := by
  have hge : ¬ (e.env.now ≥ u.expiresAt - 60000) := by omega
  have hapi := getUserApi_fresh_token e U u hu hge
  refine ⟨?_, ?_, ?_⟩
  · cases ro with
    | failure =>
        simp only [getCurrentlyPlaying, hapi, takeFetch, hpb, refreshUserToken, hu,
                   takeRefresh, hro]
        simp [hrc]
    | success tok expIn =>
        cases po2 with
        | ok r2 =>
            simp only [getCurrentlyPlaying, hapi, takeFetch, hpb, refreshUserToken, hu,
                       takeRefresh, hro, getUserApi_useFresh_eq, mapGet_mapSet_self]
            simp [hrc, processResponse_refreshCount]
        | err c =>
            simp only [getCurrentlyPlaying, hapi, takeFetch, hpb, refreshUserToken, hu,
                       takeRefresh, hro, getUserApi_useFresh_eq, mapGet_mapSet_self]
            simp [hrc]
  · intro hrof
    subst hrof
    simp only [getCurrentlyPlaying, hapi, takeFetch, hpb, refreshUserToken, hu,
               takeRefresh, hro]
    simp [hfc]
  · intro tok expIn hros
    subst hros
    constructor
    · cases po2 with
      | ok r2 =>
          simp only [getCurrentlyPlaying, hapi, takeFetch, hpb, refreshUserToken, hu,
                     takeRefresh, hro, getUserApi_useFresh_eq, mapGet_mapSet_self]
          simp [hfc, processResponse_fetchCount]
      | err c =>
          simp only [getCurrentlyPlaying, hapi, takeFetch, hpb, refreshUserToken, hu,
                     takeRefresh, hro, getUserApi_useFresh_eq, mapGet_mapSet_self]
          simp [hfc]
    · intro c hpo2
      subst hpo2
      simp only [getCurrentlyPlaying, hapi, takeFetch, hpb, refreshUserToken, hu,
                 takeRefresh, hro, getUserApi_useFresh_eq, mapGet_mapSet_self]
      simp

/-- Witness for C6: primary 403, a successful refresh, and a retry that
errs again: one refresh, two fetches, absent result. -/
theorem getCurrentlyPlaying_403_single_retry_witness :
    ((getCurrentlyPlaying
      { svc := { users := [("A", ⟨"A", "tok", "ref", 1000000⟩)],
                 currentlyPlaying := [], channels := [], messages := [] },
        env := { now := 1000,
                 refreshOutcomes := [RefreshOutcome.success "tok2" 3600],
                 playbackOutcomes := [FetchOutcome.err (some 403),
                                      FetchOutcome.err (some 500)],
                 artistOutcomes := [] },
        refreshCount := 0, fetchCount := 0 } "A").2.refreshCount = 1) ∧
    ((getCurrentlyPlaying
      { svc := { users := [("A", ⟨"A", "tok", "ref", 1000000⟩)],
                 currentlyPlaying := [], channels := [], messages := [] },
        env := { now := 1000,
                 refreshOutcomes := [RefreshOutcome.success "tok2" 3600],
                 playbackOutcomes := [FetchOutcome.err (some 403),
                                      FetchOutcome.err (some 500)],
                 artistOutcomes := [] },
        refreshCount := 0, fetchCount := 0 } "A").2.fetchCount = 2) ∧
    ((getCurrentlyPlaying
      { svc := { users := [("A", ⟨"A", "tok", "ref", 1000000⟩)],
                 currentlyPlaying := [], channels := [], messages := [] },
        env := { now := 1000,
                 refreshOutcomes := [RefreshOutcome.success "tok2" 3600],
                 playbackOutcomes := [FetchOutcome.err (some 403),
                                      FetchOutcome.err (some 500)],
                 artistOutcomes := [] },
        refreshCount := 0, fetchCount := 0 } "A").1 = none) := by
  have h := getCurrentlyPlaying_403_single_retry
      { svc := { users := [("A", ⟨"A", "tok", "ref", 1000000⟩)],
                 currentlyPlaying := [], channels := [], messages := [] },
        env := { now := 1000,
                 refreshOutcomes := [RefreshOutcome.success "tok2" 3600],
                 playbackOutcomes := [FetchOutcome.err (some 403),
                                      FetchOutcome.err (some 500)],
                 artistOutcomes := [] },
        refreshCount := 0, fetchCount := 0 } "A" ⟨"A", "tok", "ref", 1000000⟩
      (RefreshOutcome.success "tok2" 3600) (FetchOutcome.err (some 500)) [] []
      rfl (by decide) rfl rfl rfl rfl
  exact ⟨h.1, (h.2.2 "tok2" 3600 rfl).1, (h.2.2 "tok2" 3600 rfl).2 (some 500) rfl⟩

/-! ### Claims about the reconciliation loop and startup validator -/

theorem getUserMessage_validateChannelEntry_none (env : ValidateEnv)
    (acc : ServiceState) (p : String × String) (U : String)
    (h : getUserMessage acc U = none) :
    getUserMessage (validateChannelEntry env acc p) U = none := by
  unfold validateChannelEntry
  split
  · cases hm : getUserMessage acc p.1 with
    | none => simpa [hm] using h
    | some m =>
        simp only [hm]
        split
        · exact h
        · simpa [clearUserMessage, getUserMessage] using
            mapGet_mapDelete_of_none acc.messages p.1 U h
  · unfold removeUserChannel
    split
    · simpa [getUserMessage] using
        mapGet_mapDelete_of_none acc.messages p.1 U h
    · exact h

theorem getUserMessage_validateOrphanEntry_none (channels0 : List (String × String))
    (acc : ServiceState) (d U : String)
    (h : getUserMessage acc U = none) :
    getUserMessage (validateOrphanEntry channels0 acc d) U = none := by
  unfold validateOrphanEntry
  cases hm : getUserMessage acc d with
  | none => exact h
  | some m =>
      simp only
      split
      · exact h
      · simpa [clearUserMessage, getUserMessage] using
          mapGet_mapDelete_of_none acc.messages d U h

theorem getUserMessage_validate_none (s : ServiceState) (env : ValidateEnv)
    (U : String) (h : getUserMessage s U = none) :
    getUserMessage (validatePersistedData s env) U = none := by
  unfold validatePersistedData
  have h1 := foldl_preserve (fun a => getUserMessage a U = none)
    (validateChannelEntry env)
    (fun a b ha => getUserMessage_validateChannelEntry_none env a b U ha)
    s.channels s h
  exact foldl_preserve (fun a => getUserMessage a U = none)
    (validateOrphanEntry s.channels)
    (fun a b ha => getUserMessage_validateOrphanEntry_none s.channels a b U ha)
    (getAllLinkedUsers s) _ h1

/-- Claim C3 counterexample: user "A" is playing a track whose canonical URL
appears in a bot-authored message "hist1" in the channel's recent history,
and "A" has no stored MessageRef.  The reconciliation step does not adopt
"hist1": it sends a brand-new message "fresh1" and stores that id.  The
startup validator likewise performs no discovery: after
`validatePersistedData`, "A" still has no MessageRef. -/
theorem reconcile_discovery_cex :
    (updateUserStep
      { users := [("A", ⟨"A", "tok", "ref", 1000000⟩)],
        currentlyPlaying := [("A", ⟨"A",
          some ⟨"Song", "Artist", none, none, none,
                "https://open.spotify.com/track/1", none, 200000, 10000, true⟩,
          50, some "Song|Artist"⟩)],
        channels := [("A", "chan1")], messages := [] } "A"
      { history := [⟨"hist1", true, some "https://open.spotify.com/track/1", some "A"⟩],
        resolvable := ["hist1"], freshId := "fresh1", userFetchOk := true }).1
      = MsgEffect.sentNew "fresh1" ∧
    (updateUserStep
      { users := [("A", ⟨"A", "tok", "ref", 1000000⟩)],
        currentlyPlaying := [("A", ⟨"A",
          some ⟨"Song", "Artist", none, none, none,
                "https://open.spotify.com/track/1", none, 200000, 10000, true⟩,
          50, some "Song|Artist"⟩)],
        channels := [("A", "chan1")], messages := [] } "A"
      { history := [⟨"hist1", true, some "https://open.spotify.com/track/1", some "A"⟩],
        resolvable := ["hist1"], freshId := "fresh1", userFetchOk := true }).1
      ≠ MsgEffect.editedMsg "hist1" ∧
    getUserMessage (updateUserStep
      { users := [("A", ⟨"A", "tok", "ref", 1000000⟩)],
        currentlyPlaying := [("A", ⟨"A",
          some ⟨"Song", "Artist", none, none, none,
                "https://open.spotify.com/track/1", none, 200000, 10000, true⟩,
          50, some "Song|Artist"⟩)],
        channels := [("A", "chan1")], messages := [] } "A"
      { history := [⟨"hist1", true, some "https://open.spotify.com/track/1", some "A"⟩],
        resolvable := ["hist1"], freshId := "fresh1", userFetchOk := true }).2 "A"
      = some "fresh1" ∧
    getUserMessage (validatePersistedData
      { users := [("A", ⟨"A", "tok", "ref", 1000000⟩)],
        currentlyPlaying := [("A", ⟨"A",
          some ⟨"Song", "Artist", none, none, none,
                "https://open.spotify.com/track/1", none, 200000, 10000, true⟩,
          50, some "Song|Artist"⟩)],
        channels := [("A", "chan1")], messages := [] }
      { validChannels := ["chan1"], validMessages := ["hist1"] }) "A" = none := by
  refine ⟨by decide, by decide, by decide, by decide⟩

/-- Claim C3 (amended): for a playing user with no stored MessageRef the loop
always sends a brand-new message and stores its id; the channel's message
history is never consulted (the step's outcome is invariant under arbitrary
changes to the history); and startup validation performs no discovery — a
user without a MessageRef still lacks one after `validatePersistedData`. -/
theorem reconcile_no_discovery (s : ServiceState) (U : String) (cenv : ChannelEnv)
    (venv : ValidateEnv) (t : Track) (cp : CurrentlyPlaying)
    (hcp : mapGet s.currentlyPlaying U = some cp) (ht : cp.track = some t)
    (hok : cenv.userFetchOk = true) :
    (getUserMessage s U = none →
       (updateUserStep s U cenv).1 = MsgEffect.sentNew cenv.freshId ∧
       (updateUserStep s U cenv).2 = setUserMessage s U cenv.freshId) ∧
    (∀ h', updateUserStep s U { cenv with history := h' } = updateUserStep s U cenv) ∧
    (getUserMessage s U = none →
       getUserMessage (validatePersistedData s venv) U = none) := by
  refine ⟨?_, ?_, ?_⟩
  · intro hmsg
    simp [updateUserStep, hcp, ht, hok, hmsg]
  · intro h'
    simp [updateUserStep]
  · intro hmsg
    exact getUserMessage_validate_none s venv U hmsg

/-- Witness for the amended C3 at a concrete playing user without a stored
message id. -/
theorem reconcile_no_discovery_witness :
    (updateUserStep
      { users := [("A", ⟨"A", "tok", "ref", 1000000⟩)],
        currentlyPlaying := [("A", ⟨"A",
          some ⟨"Song", "Artist", none, none, none,
                "https://open.spotify.com/track/1", none, 200000, 10000, true⟩,
          50, some "Song|Artist"⟩)],
        channels := [("A", "chan1")], messages := [] } "A"
      { history := [], resolvable := [], freshId := "fresh9", userFetchOk := true }).1
      = MsgEffect.sentNew "fresh9" :=
  ((reconcile_no_discovery
      { users := [("A", ⟨"A", "tok", "ref", 1000000⟩)],
        currentlyPlaying := [("A", ⟨"A",
          some ⟨"Song", "Artist", none, none, none,
                "https://open.spotify.com/track/1", none, 200000, 10000, true⟩,
          50, some "Song|Artist"⟩)],
        channels := [("A", "chan1")], messages := [] } "A"
      { history := [], resolvable := [], freshId := "fresh9", userFetchOk := true }
      { validChannels := [], validMessages := [] }
      ⟨"Song", "Artist", none, none, none,
       "https://open.spotify.com/track/1", none, 200000, 10000, true⟩
      ⟨"A", some ⟨"Song", "Artist", none, none, none,
                  "https://open.spotify.com/track/1", none, 200000, 10000, true⟩,
       50, some "Song|Artist"⟩
      rfl rfl rfl).1 rfl).1

end QBot
